import Mathlib

/-!
Verification of the sensor-fusion / ray-casting core of the repository:
the `LidarSensor` range-sensor model (stochastic `measure` and density
`lookup_prob`), the Bresenham ray caster `get_distance`, the fan caster
`shoot_rays`, the per-candidate weight `importance`, and the normalizing
`sensor_fusion`.  Machine floats are modelled by real numbers; the
process-global NumPy random draws are made explicit as a `SensorDraw`
record passed to the sampling functions.
-/

noncomputable section

namespace AutonomousFlight

/-- Python `int(...)` applied to a real value: truncation toward zero. -/
def truncInt (r : ℝ) : ℤ := if 0 ≤ r then ⌊r⌋ else ⌈r⌉

/-- `np.radians`: degrees to radians. -/
def radians (deg : ℝ) : ℝ := deg * (Real.pi / 180)

/-- Python's floating-point `%`: `a % b = a - b * floor (a / b)`. -/
def fmod (a b : ℝ) : ℝ := a - b * ⌊a / b⌋

/-- `scipy.stats.norm.pdf(x, loc=loc)` with the default `scale = 1`:
the standard normal density evaluated at `x - loc`. -/
def normPdf (x loc : ℝ) : ℝ :=
  Real.exp (-((x - loc) ^ 2) / 2) / Real.sqrt (2 * Real.pi)

/-- The Gaussian density with the stated `mean` and `std`, written the way
the spec states it: `N(x; mean, std)`.  Used to compare `normPdf` (the
code's density) against the spec's wording. -/
def gaussianDensity (x mean std : ℝ) : ℝ :=
  (1 / (std * Real.sqrt (2 * Real.pi))) * Real.exp (-((x - mean) ^ 2) / (2 * std ^ 2))

/-- The `LidarSensor` class: its only state is the stored `max_range`. -/
structure LidarSensor where
  max_range : ℝ

/-- `LidarSensor.__init__(self, max_range)`: stores `max_range` as given;
the constructor performs no validation of its argument. -/
def LidarSensor.init (max_range : ℝ) : LidarSensor := ⟨max_range⟩

/-- One round of random draws consumed by `LidarSensor.measure`:
`u` is the `np.random.rand()` draw (uniform on `[0,1)`), `gauss` is the
standard-normal draw underlying `np.random.normal(expected_dist)`, and
`rint` is the `np.random.randint(0, max_range+1)` draw (an integer `ri`
with `0 ≤ ri < max_range + 1`). -/
structure SensorDraw where
  u : ℝ
  gauss : ℝ
  rint : ℤ

/-- `LidarSensor._random_measure`: returns the `np.random.randint(0,
max_range+1)` draw, i.e. the integer `ri` as a float. -/
def LidarSensor.random_measure (_s : LidarSensor) (ri : ℤ) : ℝ := (ri : ℝ)

/-- `LidarSensor._failure_measure`: returns `max_range`. -/
def LidarSensor.failure_measure (s : LidarSensor) : ℝ := s.max_range

/-- `LidarSensor._hit_measure`: `np.random.normal(expected_dist)`, i.e.
`expected_dist` plus a standard-normal draw `g`. -/
def LidarSensor.hit_measure (_s : LidarSensor) (expected_dist g : ℝ) : ℝ :=
  expected_dist + g

/-- `LidarSensor.measure`: draws `p = np.random.rand()` and selects the
hit / random / failure branch by `p <= 0.95`, then `p <= 0.98`. -/
def LidarSensor.measure (s : LidarSensor) (expected_dist : ℝ) (d : SensorDraw) : ℝ :=
  if d.u ≤ 0.95 then s.hit_measure expected_dist d.gauss
  else if d.u ≤ 0.98 then s.random_measure d.rint
  else s.failure_measure

/-- `LidarSensor.lookup_prob`: `0.95 * stats.norm.pdf(measured_dist,
loc=expected_dist) + 0.03 * (1 / max_range)`, plus `0.02` exactly when
`measured_dist == max_range`. -/
def LidarSensor.lookup_prob (s : LidarSensor) (expected_dist measured_dist : ℝ) : ℝ :=
  let norm_prob := 0.95 * normPdf measured_dist expected_dist
  let random_prob := 0.03 * (1 / s.max_range)
  let failure_prob : ℝ := if measured_dist = s.max_range then 0.02 else 0
  norm_prob + random_prob + failure_prob

/-- The occupancy grid: a numpy 2-D array of `0`/`1` cells, indexed
`grid[row, col]`. -/
abbrev Grid := List (List ℕ)

/-- Number of rows of the grid (`grid.shape[0]`). -/
def nrows (g : Grid) : ℤ := g.length

/-- Number of columns of the grid (`grid.shape[1]`). -/
def ncols (g : Grid) : ℤ := (g.headD []).length

/-- The cell value `grid[y, x]` (row `y`, column `x`); only read behind the
`inbounds` guard, where both indices are nonnegative and in range. -/
def grid_at (g : Grid) (x y : ℤ) : ℕ := (g.getD y.toNat []).getD x.toNat 0

/-- Modelled from the spec: the helper `inbounds` is imported from the
repository's `utils` module, which is not under `src/`.  Per the spec a
traversed cell `(x, y)` lies within the grid's bounds exactly when its
column index is in `[0, ncols)` and its row index is in `[0, nrows)`. -/
def inbounds (g : Grid) (x y : ℤ) : Bool :=
  decide (0 ≤ x) && decide (x < ncols g) && decide (0 ≤ y) && decide (y < nrows g)

/-- Modelled from the spec: the inner loop of the third-party `bresenham`
line-rasterization primitive imported by the notebook, which is not under
`src/`.  State: remaining iterations, `x`, `y`, decision variable `D`. -/
def bresenham_loop (x0 y0 xx xy yx yy dx dy : ℤ) :
    ℕ → ℤ → ℤ → ℤ → List (ℤ × ℤ)
  | 0, _, _, _ => []
  | n + 1, x, y, D =>
    (x0 + x * xx + y * yx, y0 + x * xy + y * yy) ::
      (if 0 ≤ D then
        bresenham_loop x0 y0 xx xy yx yy dx dy n (x + 1) (y + 1) (D - 2 * dx + 2 * dy)
      else
        bresenham_loop x0 y0 xx xy yx yy dx dy n (x + 1) y (D + 2 * dy))

/-- Modelled from the spec: the third-party `bresenham(x0, y0, x1, y1)`
primitive (not under `src/`); per the spec it enumerates, in order from
start to end with 8-connected stepping and no gaps, the grid cells of the
integer line from `(x0, y0)` to `(x1, y1)` (Bresenham's line algorithm). -/
def bresenham (x0 y0 x1 y1 : ℤ) : List (ℤ × ℤ) :=
  let xsign : ℤ := if 0 < x1 - x0 then 1 else -1
  let ysign : ℤ := if 0 < y1 - y0 then 1 else -1
  let dx : ℤ := (x1 - x0).natAbs
  let dy : ℤ := (y1 - y0).natAbs
  if dy < dx then
    bresenham_loop x0 y0 xsign 0 0 ysign dx dy (dx.toNat + 1) 0 0 (2 * dy - dx)
  else
    bresenham_loop x0 y0 0 ysign xsign 0 dy dx (dy.toNat + 1) 0 0 (2 * dx - dy)

/-- `np.linalg.norm(np.array([x, y]) - np.array([cx, cy]))`: the Euclidean
distance from the (untruncated) pose `(x, y)` to the cell `(cx, cy)`. -/
def norm_dist (x y cx cy : ℝ) : ℝ := Real.sqrt ((x - cx) ^ 2 + (y - cy) ^ 2)

/-- The cell list enumerated inside `get_distance`:
`bresenham(int(x), int(y), int(x2), int(y2))` for the endpoint
`(x2, y2) = (x + max_range*cos(angle), y + max_range*sin(angle))`. -/
def ray_cells (s : LidarSensor) (x y angle : ℝ) : List (ℤ × ℤ) :=
  bresenham (truncInt x) (truncInt y)
    (truncInt (x + s.max_range * Real.cos angle))
    (truncInt (y + s.max_range * Real.sin angle))

/-- The `for c in cells` loop of `get_distance`: starting from the initial
`dist = max_range`, `loc = [x2, y2]`, return early with the current values
on the first out-of-bounds cell, and on the first occupied cell return the
Euclidean distance from `(x, y)` to that cell together with the cell. -/
def ray_walk (g : Grid) (s : LidarSensor) (x y : ℝ) (endp : ℝ × ℝ) :
    List (ℤ × ℤ) → ℝ × (ℝ × ℝ)
  | [] => (s.max_range, endp)
  | c :: cs =>
    if ¬ inbounds g c.1 c.2 then (s.max_range, endp)
    else if grid_at g c.1 c.2 = 1 then
      (norm_dist x y (c.1 : ℝ) (c.2 : ℝ), ((c.1 : ℝ), (c.2 : ℝ)))
    else ray_walk g s x y endp cs

/-- The first cell at which the `get_distance` loop records a hit: walking
the enumerated cells in order, `none` as soon as a cell is out of bounds or
when the list is exhausted, and `some c` at the first in-bounds occupied
cell `c`.  A proof-side characterization of the loop's stopping point. -/
def first_hit (g : Grid) : List (ℤ × ℤ) → Option (ℤ × ℤ)
  | [] => none
  | c :: cs =>
    if ¬ inbounds g c.1 c.2 then none
    else if grid_at g c.1 c.2 = 1 then some c
    else first_hit g cs

/-- `get_distance(grid_map, sensor, x, y, angle)`: casts a ray of length
`max_range` from `(x, y)` at `angle`, walks the Bresenham cells, and
returns `(dist, loc)`. -/
def get_distance (g : Grid) (s : LidarSensor) (x y angle : ℝ) : ℝ × (ℝ × ℝ) :=
  let x2 := x + s.max_range * Real.cos angle
  let y2 := y + s.max_range * Real.sin angle
  ray_walk g s x y (x2, y2) (ray_cells s x y angle)

/-- `shoot_rays(grid_map, sensor, state, k)`: for each `i < k`, bearing
`i * (360 / k)` degrees, angle `(theta + radians(bearing)) % (2*pi)`, and
the resulting `get_distance` distance from `(x, y)`. -/
def shoot_rays (g : Grid) (s : LidarSensor) (state : ℝ × ℝ × ℝ) (k : ℕ) : List ℝ :=
  (List.range k).map (fun i =>
    let bearing := (i : ℝ) * (360 / (k : ℝ))
    let angle := fmod (state.2.2 + radians bearing) (2 * Real.pi)
    (get_distance g s state.1 state.2.1 angle).1)

/-- `importance(grid_map, sensor, state, measured_distances)`: shoots
`len(measured_distances)` rays from `state` and multiplies the sensor
likelihood of every paired `(expected, measured)` distance into a running
product that starts at `1`. -/
def importance (g : Grid) (s : LidarSensor) (state : ℝ × ℝ × ℝ)
    (measured_distances : List ℝ) : ℝ :=
  let expected_distances := shoot_rays g s state measured_distances.length
  (expected_distances.zip measured_distances).foldl
    (fun weight em => weight * s.lookup_prob em.1 em.2) 1

/-- `sensor_fusion(grid_map, sensor, samples, measured_distances)`:
collects the raw `importance` weight of every sample and divides each
entry by the sum of the raw weights. -/
def sensor_fusion (g : Grid) (s : LidarSensor) (samples : List (ℝ × ℝ × ℝ))
    (measured_distances : List ℝ) : List ℝ :=
  let weights := samples.map (fun t => importance g s t measured_distances)
  weights.map (fun w => w / weights.sum)

/-! ### Helper lemmas -/

/-- The standard normal density is strictly positive. -/
theorem normPdf_pos (x loc : ℝ) : 0 < normPdf x loc := by
  unfold normPdf
  exact div_pos (Real.exp_pos _) (Real.sqrt_pos.mpr (by positivity))

/-- With a strictly positive `max_range`, every sensor likelihood is
strictly positive: the Gaussian term is positive, the uniform term is
positive, and the failure term is nonnegative. -/
theorem lookup_prob_pos (s : LidarSensor) (hm : 0 < s.max_range) (e m : ℝ) :
    0 < s.lookup_prob e m := by
  unfold LidarSensor.lookup_prob
  have h1 : 0 < normPdf m e := normPdf_pos m e
  have h2 : (0 : ℝ) < 0.03 * (1 / s.max_range) := by positivity
  have h3 : (0 : ℝ) ≤ if m = s.max_range then (0.02 : ℝ) else 0 := by
    split <;> norm_num
  nlinarith

/-- Folding multiplication of sensor likelihoods preserves positivity. -/
theorem foldl_lookup_pos (s : LidarSensor) (hm : 0 < s.max_range) :
    ∀ (l : List (ℝ × ℝ)) (c : ℝ), 0 < c →
      0 < l.foldl (fun weight em => weight * s.lookup_prob em.1 em.2) c := by
  intro l
  induction l with
  | nil => intro c hc; simpa using hc
  | cons p ps ih =>
    intro c hc
    simpa using ih _ (mul_pos hc (lookup_prob_pos s hm p.1 p.2))

/-- With a strictly positive `max_range`, every raw importance weight is
strictly positive (a product of positive likelihoods starting from 1). -/
theorem importance_pos (g : Grid) (s : LidarSensor) (st : ℝ × ℝ × ℝ)
    (md : List ℝ) (hm : 0 < s.max_range) : 0 < importance g s st md := by
  unfold importance
  exact foldl_lookup_pos s hm _ 1 one_pos

/-- Dividing every entry of a list by a constant divides its sum. -/
theorem sum_map_div (l : List ℝ) (c : ℝ) :
    (l.map (fun w => w / c)).sum = l.sum / c := by
  induction l with
  | nil => simp
  | cons a as ih => simp [ih, add_div]

/-- A multiplicative fold over a zipped pair of lists is the starting value
times the product of the pairwise images. -/
theorem foldl_mul_zipWith (f : ℝ → ℝ → ℝ) :
    ∀ (l1 l2 : List ℝ) (c : ℝ),
      (l1.zip l2).foldl (fun weight em => weight * f em.1 em.2) c =
        c * (List.zipWith f l1 l2).prod := by
  intro l1
  induction l1 with
  | nil => intro l2 c; simp
  | cons a as ih =>
    intro l2 c
    cases l2 with
    | nil => simp
    | cons b bs => simp [ih, mul_assoc]

/-- If the `get_distance` loop records no hit, it returns the initial
distance `max_range` together with the initial (endpoint) location. -/
theorem ray_walk_of_first_hit_none (g : Grid) (s : LidarSensor) (x y : ℝ)
    (endp : ℝ × ℝ) :
    ∀ cells : List (ℤ × ℤ), first_hit g cells = none →
      ray_walk g s x y endp cells = (s.max_range, endp) := by
  intro cells
  induction cells with
  | nil => intro _; rfl
  | cons c cs ih =>
    intro h
    by_cases hb : inbounds g c.1 c.2
    · by_cases ho : grid_at g c.1 c.2 = 1
      · simp [first_hit, hb, ho] at h
      · have h' : first_hit g cs = none := by simpa [first_hit, hb, ho] using h
        simpa [ray_walk, hb, ho] using ih h'
    · simp [ray_walk, hb]

/-- If the `get_distance` loop records its first hit at cell `c`, it
returns the Euclidean distance from the untruncated pose to `c` together
with `c` as the location. -/
theorem ray_walk_of_first_hit_some (g : Grid) (s : LidarSensor) (x y : ℝ)
    (endp : ℝ × ℝ) :
    ∀ (cells : List (ℤ × ℤ)) (c : ℤ × ℤ), first_hit g cells = some c →
      ray_walk g s x y endp cells =
        (norm_dist x y (c.1 : ℝ) (c.2 : ℝ), ((c.1 : ℝ), (c.2 : ℝ))) := by
  intro cells
  induction cells with
  | nil => intro c h; simp [first_hit] at h
  | cons a as ih =>
    intro c h
    by_cases hb : inbounds g a.1 a.2
    · by_cases ho : grid_at g a.1 a.2 = 1
      · have hc : a = c := by simpa [first_hit, hb, ho] using h
        subst hc
        simp [ray_walk, hb, ho]
      · have h' : first_hit g as = some c := by simpa [first_hit, hb, ho] using h
        simpa [ray_walk, hb, ho] using ih c h'
    · simp [first_hit, hb] at h

/-- The cell at which the loop records a hit is one of the enumerated
cells. -/
theorem first_hit_mem (g : Grid) :
    ∀ (cells : List (ℤ × ℤ)) (c : ℤ × ℤ), first_hit g cells = some c →
      c ∈ cells := by
  intro cells
  induction cells with
  | nil => intro c h; simp [first_hit] at h
  | cons a as ih =>
    intro c h
    by_cases hb : inbounds g a.1 a.2
    · by_cases ho : grid_at g a.1 a.2 = 1
      · have : a = c := by simpa [first_hit, hb, ho] using h
        exact this ▸ List.mem_cons_self a as
      · exact List.mem_cons_of_mem a (ih c (by simpa [first_hit, hb, ho] using h))
    · simp [first_hit, hb] at h

/-- On a grid with no cell equal to 1, every cell lookup differs from 1
(out-of-range lookups return the default 0). -/
theorem grid_at_ne_one_of_empty (g : Grid)
    (hg : ∀ row ∈ g, ∀ v ∈ row, v ≠ 1) (x y : ℤ) : grid_at g x y ≠ 1 := by
  unfold grid_at
  rcases lt_or_le y.toNat g.length with hy | hy
  · rw [List.getD_eq_getElem g [] hy]
    rcases lt_or_le x.toNat (g[y.toNat]).length with hx | hx
    · rw [List.getD_eq_getElem _ 0 hx]
      exact hg _ (List.getElem_mem hy) _ (List.getElem_mem hx)
    · rw [List.getD_eq_default _ 0 hx]; norm_num
  · rw [List.getD_eq_default g [] hy]
    norm_num [List.getD]

/-- On a grid with no cell equal to 1, the loop never records a hit. -/
theorem first_hit_none_of_empty (g : Grid)
    (hg : ∀ row ∈ g, ∀ v ∈ row, v ≠ 1) :
    ∀ cells : List (ℤ × ℤ), first_hit g cells = none := by
  intro cells
  induction cells with
  | nil => rfl
  | cons a as ih =>
    by_cases hb : inbounds g a.1 a.2
    · simp [first_hit, hb, grid_at_ne_one_of_empty g hg a.1 a.2, ih]
    · simp [first_hit, hb]

/-! ### Claim theorems -/

/-- C1: for every candidate pose list of size `n ≥ 1` and fixed measurement
vector, `sensor_fusion` returns a weight vector of length `n`, in the same
order as the candidates (entry `i` is candidate `i`'s raw importance weight
divided by the common sum), whose entries are all `≥ 0` and whose sum is
exactly `1`.  In the real-number model with `max_range > 0` every raw
weight is strictly positive, so the degenerate all-zero case never
arises. -/
theorem sensor_fusion_normalized_distribution (g : Grid) (s : LidarSensor)
    (samples : List (ℝ × ℝ × ℝ)) (md : List ℝ) (n : ℕ)
    (hlen : samples.length = n) (hn : 1 ≤ n) (hm : 0 < s.max_range) :
    (sensor_fusion g s samples md).length = n ∧
    sensor_fusion g s samples md =
      samples.map (fun t => importance g s t md /
        (samples.map (fun t => importance g s t md)).sum) ∧
    (∀ w ∈ sensor_fusion g s samples md, 0 ≤ w) ∧
    (sensor_fusion g s samples md).sum = 1 := by
  have hne : samples ≠ [] := by
    intro h
    rw [h] at hlen
    simp at hlen
    omega
  have hWpos : ∀ w ∈ samples.map (fun t => importance g s t md), 0 < w := by
    intro w hw
    rcases List.mem_map.mp hw with ⟨t, _, rfl⟩
    exact importance_pos g s t md hm
  have hSpos : 0 < (samples.map (fun t => importance g s t md)).sum :=
    List.sum_pos _ hWpos (by simpa using hne)
  refine ⟨?_, ?_, ?_, ?_⟩
  · simp [sensor_fusion, hlen]
  · simp [sensor_fusion, List.map_map, Function.comp]
  · intro w hw
    unfold sensor_fusion at hw
    rcases List.mem_map.mp hw with ⟨v, hv, rfl⟩
    exact le_of_lt (div_pos (hWpos v hv) hSpos)
  · unfold sensor_fusion
    rw [sum_map_div]
    exact div_self (ne_of_gt hSpos)

/-- C1 witness: one candidate, empty measurement vector, `max_range = 1`. -/
theorem sensor_fusion_normalized_distribution_witness :
    (([((0:ℝ), (0:ℝ), (0:ℝ))].length = 1) ∧ 1 ≤ 1 ∧
      (0 : ℝ) < (LidarSensor.init 1).max_range) ∧
    ((sensor_fusion [[0]] (LidarSensor.init 1) [((0:ℝ), (0:ℝ), (0:ℝ))] []).length = 1 ∧
      sensor_fusion [[0]] (LidarSensor.init 1) [((0:ℝ), (0:ℝ), (0:ℝ))] [] =
        [((0:ℝ), (0:ℝ), (0:ℝ))].map (fun t => importance [[0]] (LidarSensor.init 1) t [] /
          ([((0:ℝ), (0:ℝ), (0:ℝ))].map
            (fun t => importance [[0]] (LidarSensor.init 1) t [])).sum) ∧
      (∀ w ∈ sensor_fusion [[0]] (LidarSensor.init 1) [((0:ℝ), (0:ℝ), (0:ℝ))] [], 0 ≤ w) ∧
      (sensor_fusion [[0]] (LidarSensor.init 1) [((0:ℝ), (0:ℝ), (0:ℝ))] []).sum = 1) :=
  ⟨⟨rfl, le_refl 1, by norm_num [LidarSensor.init]⟩,
    sensor_fusion_normalized_distribution [[0]] (LidarSensor.init 1)
      [((0:ℝ), (0:ℝ), (0:ℝ))] [] 1 rfl (le_refl 1) (by norm_num [LidarSensor.init])⟩

/-- C2: `importance` equals the product, over the pairs of
`shoot_rays` expected distances (with `k = len(measured_distances)`) and
measured distances, of the sensor likelihoods — a multiplicative
combination starting from 1. -/
theorem importance_is_product_of_likelihoods (g : Grid) (s : LidarSensor)
    (state : ℝ × ℝ × ℝ) (md : List ℝ) :
    importance g s state md =
      (List.zipWith s.lookup_prob (shoot_rays g s state md.length) md).prod := by
  unfold importance
  rw [foldl_mul_zipWith, one_mul]

/-- C3: `lookup_prob` is exactly `0.95` times the Gaussian density with
mean `expected_dist` and standard deviation 1 at `measured_dist`, plus
`0.03 * (1/max_range)`, plus `0.02` exactly when `measured_dist` equals
`max_range`. -/
theorem lookup_prob_gaussian_mixture (s : LidarSensor) (ed md : ℝ) :
    s.lookup_prob ed md =
      0.95 * gaussianDensity md ed 1 + 0.03 * (1 / s.max_range) +
        (if md = s.max_range then (0.02 : ℝ) else 0) := by
  have h : gaussianDensity md ed 1 = normPdf md ed := by
    unfold gaussianDensity normPdf
    rw [one_pow, mul_one, one_mul, one_div_mul_eq_div]
  rw [h]
  rfl

/-- C4: `measure` selects its branch from the single uniform draw `p` by
comparing against `0.95` then `0.98` in order: at or below `0.95` it
returns the Gaussian draw centred at `expected_dist` (the standard-normal
perturbation added to `expected_dist`), above `0.95` and at or below
`0.98` it returns the random-branch draw, and otherwise exactly
`max_range`. -/
theorem measure_branch_selection (s : LidarSensor) (e : ℝ) (d : SensorDraw) :
    (d.u ≤ 0.95 → s.measure e d = e + d.gauss) ∧
    (0.95 < d.u → d.u ≤ 0.98 → s.measure e d = (d.rint : ℝ)) ∧
    (0.98 < d.u → s.measure e d = s.max_range) := by
  refine ⟨fun h => ?_, fun h1 h2 => ?_, fun h => ?_⟩
  · simp [LidarSensor.measure, LidarSensor.hit_measure, h]
  · simp [LidarSensor.measure, LidarSensor.random_measure, not_le.mpr h1, h2]
  · have h95 : ¬ d.u ≤ 0.95 := not_le.mpr (lt_trans (by norm_num) h)
    have h98 : ¬ d.u ≤ 0.98 := not_le.mpr h
    simp [LidarSensor.measure, LidarSensor.failure_measure, h95, h98]

/-- C4 witness: a concrete draw `p = 0.5` lands in the hit branch. -/
theorem measure_branch_selection_witness :
    ((0.5 : ℝ) ≤ 0.95 → (LidarSensor.init 5).measure 3 ⟨0.5, 1, 2⟩ = 3 + 1) ∧
    ((0.95 : ℝ) < 0.5 → (0.5 : ℝ) ≤ 0.98 →
      (LidarSensor.init 5).measure 3 ⟨0.5, 1, 2⟩ = ((2 : ℤ) : ℝ)) ∧
    ((0.98 : ℝ) < 0.5 →
      (LidarSensor.init 5).measure 3 ⟨0.5, 1, 2⟩ = (LidarSensor.init 5).max_range) :=
  measure_branch_selection (LidarSensor.init 5) 3 ⟨0.5, 1, 2⟩

/-- C5 counterexample: with `max_range = 2`, the value `1/2` lies in the
continuous interval `[0, 2]`, yet no valid `randint(0, max_range+1)` draw
makes `_random_measure` return it — the branch is not a draw from the
continuous interval. -/
theorem random_measure_misses_continuous_point :
    (1 / 2 : ℝ) ∈ Set.Icc (0 : ℝ) 2 ∧
    ¬ ∃ ri : ℤ, 0 ≤ ri ∧ (ri : ℝ) < 2 + 1 ∧
        (LidarSensor.init 2).random_measure ri = (1 / 2 : ℝ) := by
  constructor
  · exact ⟨by norm_num, by norm_num⟩
  · rintro ⟨ri, _, _, h⟩
    rw [LidarSensor.random_measure] at h
    have h2 : ((2 * ri : ℤ) : ℝ) = ((1 : ℤ) : ℝ) := by push_cast; linarith
    have h3 : (2 * ri : ℤ) = 1 := by exact_mod_cast h2
    omega

/-- C5 amended: in the random branch, the returned reading is a uniformly
drawn *integer* from `{0, 1, ..., max_range}` (for an integer
`max_range = m`): every valid `randint(0, max_range+1)` draw yields an
integer reading inside `[0, max_range]`, and every integer in that range
is attained by some valid draw. -/
theorem random_measure_integer_support (s : LidarSensor) (m : ℤ)
    (hm : s.max_range = (m : ℝ)) :
    (∀ ri : ℤ, 0 ≤ ri → (ri : ℝ) < s.max_range + 1 →
      s.random_measure ri ∈ Set.Icc (0 : ℝ) s.max_range ∧
        ∃ n : ℤ, 0 ≤ n ∧ n ≤ m ∧ s.random_measure ri = (n : ℝ)) ∧
    (∀ n : ℤ, 0 ≤ n → n ≤ m →
      ∃ ri : ℤ, 0 ≤ ri ∧ (ri : ℝ) < s.max_range + 1 ∧
        s.random_measure ri = (n : ℝ)) := by
  constructor
  · intro ri h0 h1
    rw [hm] at h1 ⊢
    have hlt : ri < m + 1 := by exact_mod_cast h1
    unfold LidarSensor.random_measure
    exact ⟨⟨by exact_mod_cast h0, by exact_mod_cast (by omega : ri ≤ m)⟩,
      ri, h0, by omega, rfl⟩
  · intro n h0 h1
    refine ⟨n, h0, ?_, rfl⟩
    rw [hm]
    exact_mod_cast (by omega : n < m + 1)

/-- C5 amended witness: `max_range = 2`, draw `ri = 1`. -/
theorem random_measure_integer_support_witness :
    ((LidarSensor.init 2).max_range = ((2 : ℤ) : ℝ)) ∧
    ((∀ ri : ℤ, 0 ≤ ri → (ri : ℝ) < (LidarSensor.init 2).max_range + 1 →
      (LidarSensor.init 2).random_measure ri ∈
          Set.Icc (0 : ℝ) (LidarSensor.init 2).max_range ∧
        ∃ n : ℤ, 0 ≤ n ∧ n ≤ 2 ∧
          (LidarSensor.init 2).random_measure ri = (n : ℝ)) ∧
    (∀ n : ℤ, 0 ≤ n → n ≤ 2 →
      ∃ ri : ℤ, 0 ≤ ri ∧ (ri : ℝ) < (LidarSensor.init 2).max_range + 1 ∧
        (LidarSensor.init 2).random_measure ri = (n : ℝ))) :=
  ⟨by norm_num [LidarSensor.init],
    random_measure_integer_support (LidarSensor.init 2) 2
      (by norm_num [LidarSensor.init])⟩

/-- C6: `get_distance` returns exactly `max_range` whenever the loop
records no hit along the Bresenham-enumerated cells — both when the walk
stops at an out-of-bounds cell and when the enumeration completes with no
occupied cell (`first_hit = none` covers precisely these two cases); in
particular, on a grid with no occupied cells the returned distance is
exactly `max_range` from any pose at any angle. -/
theorem get_distance_max_range_when_unobstructed (g : Grid) (s : LidarSensor)
    (x y angle : ℝ) :
    (first_hit g (ray_cells s x y angle) = none →
      (get_distance g s x y angle).1 = s.max_range) ∧
    ((∀ row ∈ g, ∀ v ∈ row, v ≠ 1) →
      (get_distance g s x y angle).1 = s.max_range) := by
  constructor
  · intro h
    unfold get_distance
    rw [ray_walk_of_first_hit_none g s x y _ _ h]
  · intro hg
    unfold get_distance
    rw [ray_walk_of_first_hit_none g s x y _ _
      (first_hit_none_of_empty g hg _)]

/-- C6 witness: the empty 1×1 grid, pose `(0,0)`, angle `0`,
`max_range = 2`. -/
theorem get_distance_max_range_when_unobstructed_witness :
    (∀ row ∈ ([[0]] : Grid), ∀ v ∈ row, v ≠ 1) ∧
    (get_distance [[0]] (LidarSensor.init 2) 0 0 0).1 =
      (LidarSensor.init 2).max_range :=
  ⟨by decide,
    (get_distance_max_range_when_unobstructed [[0]] (LidarSensor.init 2)
      0 0 0).2 (by decide)⟩

/-- C7: when the loop reaches a first in-bounds occupied cell `c`, the
result is the Euclidean distance from the original untruncated pose
`(x, y)` to `c` together with `c` as the location; when no hit is recorded
the returned location is the unclipped endpoint
`(x + max_range*cos(angle), y + max_range*sin(angle))`. -/
theorem get_distance_hit_distance_and_location (g : Grid) (s : LidarSensor)
    (x y angle : ℝ) :
    (∀ c : ℤ × ℤ, first_hit g (ray_cells s x y angle) = some c →
      get_distance g s x y angle =
        (norm_dist x y (c.1 : ℝ) (c.2 : ℝ), ((c.1 : ℝ), (c.2 : ℝ)))) ∧
    (first_hit g (ray_cells s x y angle) = none →
      (get_distance g s x y angle).2 =
        (x + s.max_range * Real.cos angle, y + s.max_range * Real.sin angle)) := by
  constructor
  · intro c h
    unfold get_distance
    rw [ray_walk_of_first_hit_some g s x y _ _ c h]
  · intro h
    unfold get_distance
    rw [ray_walk_of_first_hit_none g s x y _ _ h]

/-- C7 witness: a 1×1 grid whose single cell is occupied, pose `(0,0)`,
angle `0`, `max_range = 2` — the hit is at cell `(0,0)`. -/
theorem get_distance_hit_distance_and_location_witness :
    first_hit [[1]] (ray_cells (LidarSensor.init 2) 0 0 0) = some (0, 0) ∧
    get_distance [[1]] (LidarSensor.init 2) 0 0 0 =
      (norm_dist 0 0 (((0, 0) : ℤ × ℤ).1 : ℝ) (((0, 0) : ℤ × ℤ).2 : ℝ),
        ((((0, 0) : ℤ × ℤ).1 : ℝ), (((0, 0) : ℤ × ℤ).2 : ℝ))) := by
  have hcells : ray_cells (LidarSensor.init 2) 0 0 0 = [(0, 0), (1, 0), (2, 0)] := by
    have h1 : truncInt ((0 : ℝ) + (LidarSensor.init 2).max_range * Real.cos 0) = 2 := by
      norm_num [truncInt, LidarSensor.init]
    have h2 : truncInt ((0 : ℝ) + (LidarSensor.init 2).max_range * Real.sin 0) = 0 := by
      norm_num [truncInt, LidarSensor.init]
    have h3 : truncInt (0 : ℝ) = 0 := by norm_num [truncInt]
    unfold ray_cells
    rw [h3, h1, h2]
    decide
  have hfh : first_hit [[1]] (ray_cells (LidarSensor.init 2) 0 0 0) = some (0, 0) := by
    rw [hcells]; decide
  exact ⟨hfh,
    (get_distance_hit_distance_and_location [[1]] (LidarSensor.init 2) 0 0 0).1
      (0, 0) hfh⟩

/-- C8 counterexample: with `max_range = 5`, the valid draw
`p = 0.5` (hit branch) with standard-normal perturbation `-4` produces the
reading `3 + (-4) = -1`, which lies outside `[0, max_range]` — the hit
branch's Gaussian is unbounded, so readings do not all lie in the
interval. -/
theorem measure_reading_outside_range :
    ((0 : ℝ) ≤ 0.5 ∧ (0.5 : ℝ) < 1) ∧
    (LidarSensor.init 5).measure 3 ⟨0.5, -4, 0⟩ = -1 ∧
    (-1 : ℝ) ∉ Set.Icc (0 : ℝ) ((LidarSensor.init 5).max_range) := by
  refine ⟨⟨by norm_num, by norm_num⟩, ?_, ?_⟩
  · norm_num [LidarSensor.measure, LidarSensor.hit_measure]
  · norm_num [Set.mem_Icc]

/-- C8 amended: readings from the random and failure branches (uniform
draw above `0.95`) lie in `[0, max_range]` for an integer `max_range ≥ 0`
and valid draws, while the hit branch adds an unbounded Gaussian
perturbation; every `get_distance` distance is either exactly `max_range`
or the Euclidean distance from the untruncated pose to one of the
enumerated cells (which can exceed `max_range`), and every `shoot_rays`
entry is such a `get_distance` distance. -/
theorem reading_and_distance_range_amended (s : LidarSensor) (m : ℤ) (e : ℝ)
    (d : SensorDraw) (hm : s.max_range = (m : ℝ)) (h0 : 0 ≤ m)
    (hr0 : 0 ≤ d.rint) (hr1 : d.rint < m + 1) :
    ((0.95 : ℝ) < d.u → s.measure e d ∈ Set.Icc (0 : ℝ) s.max_range) ∧
    (∀ (g : Grid) (x y angle : ℝ),
      (get_distance g s x y angle).1 = s.max_range ∨
        ∃ c ∈ ray_cells s x y angle,
          (get_distance g s x y angle).1 = norm_dist x y (c.1 : ℝ) (c.2 : ℝ)) ∧
    (∀ (g : Grid) (st : ℝ × ℝ × ℝ) (k : ℕ), ∀ e2 ∈ shoot_rays g s st k,
      ∃ angle : ℝ, e2 = (get_distance g s st.1 st.2.1 angle).1) := by
  refine ⟨?_, ?_, ?_⟩
  · intro hu
    have h95 : ¬ d.u ≤ 0.95 := not_le.mpr hu
    by_cases h98 : d.u ≤ 0.98
    · have hrm : d.rint ≤ m := by omega
      simp only [LidarSensor.measure, h95, if_false, h98, if_true,
        LidarSensor.random_measure, if_neg h95, if_pos h98]
      rw [hm]
      exact ⟨by exact_mod_cast hr0, by exact_mod_cast hrm⟩
    · simp only [LidarSensor.measure, if_neg h95, if_neg h98,
        LidarSensor.failure_measure]
      refine ⟨?_, le_refl _⟩
      rw [hm]
      exact_mod_cast h0
  · intro g x y angle
    cases hfh : first_hit g (ray_cells s x y angle) with
    | none =>
      left
      unfold get_distance
      rw [ray_walk_of_first_hit_none g s x y _ _ hfh]
    | some c =>
      right
      refine ⟨c, first_hit_mem g _ c hfh, ?_⟩
      unfold get_distance
      rw [ray_walk_of_first_hit_some g s x y _ _ c hfh]
  · intro g st k e2 he2
    unfold shoot_rays at he2
    rcases List.mem_map.mp he2 with ⟨i, _, rfl⟩
    exact ⟨fmod (st.2.2 + radians ((i : ℝ) * (360 / (k : ℝ)))) (2 * Real.pi), rfl⟩

/-- C8 amended witness: `max_range = 5`, draw `p = 0.99` (failure branch),
`randint` draw `3`. -/
theorem reading_and_distance_range_amended_witness :
    ((LidarSensor.init 5).max_range = ((5 : ℤ) : ℝ) ∧ (0 : ℤ) ≤ 5 ∧
      (0 : ℤ) ≤ (3 : ℤ) ∧ (3 : ℤ) < 5 + 1) ∧
    (((0.95 : ℝ) < (0.99 : ℝ) →
      (LidarSensor.init 5).measure 3 ⟨0.99, 0, 3⟩ ∈
        Set.Icc (0 : ℝ) (LidarSensor.init 5).max_range) ∧
    (∀ (g : Grid) (x y angle : ℝ),
      (get_distance g (LidarSensor.init 5) x y angle).1 =
          (LidarSensor.init 5).max_range ∨
        ∃ c ∈ ray_cells (LidarSensor.init 5) x y angle,
          (get_distance g (LidarSensor.init 5) x y angle).1 =
            norm_dist x y (c.1 : ℝ) (c.2 : ℝ)) ∧
    (∀ (g : Grid) (st : ℝ × ℝ × ℝ) (k : ℕ),
      ∀ e2 ∈ shoot_rays g (LidarSensor.init 5) st k,
        ∃ angle : ℝ, e2 = (get_distance g (LidarSensor.init 5) st.1 st.2.1 angle).1)) :=
  ⟨⟨by norm_num [LidarSensor.init], by norm_num, by norm_num, by norm_num⟩,
    reading_and_distance_range_amended (LidarSensor.init 5) 5 3 ⟨0.99, 0, 3⟩
      (by norm_num [LidarSensor.init]) (by norm_num) (by norm_num) (by norm_num)⟩

/-- C9 counterexample: `LidarSensor.__init__` accepts `max_range = -1`
without any error — the sensor is constructed with the non-positive value
stored, and a sample (failure branch) proceeds, returning `-1`. -/
theorem lidar_init_accepts_nonpositive_range :
    (LidarSensor.init (-1)).max_range = -1 ∧
    (LidarSensor.init (-1)).measure 3 ⟨0.99, 0, 0⟩ = -1 := by
  refine ⟨rfl, ?_⟩
  norm_num [LidarSensor.measure, LidarSensor.failure_measure, LidarSensor.init]

/-- C9 amended: the constructor performs no validation: any `max_range`,
non-positive values included, is stored as-is, no error is raised before
sampling, and the failure branch of a subsequent sample returns the
non-positive `max_range` itself. -/
theorem lidar_init_stores_unvalidated (m : ℝ) (hm : m ≤ 0) (e : ℝ)
    (d : SensorDraw) (hu : (0.98 : ℝ) < d.u) :
    (LidarSensor.init m).max_range = m ∧
    (LidarSensor.init m).measure e d = m := by
  have h95 : ¬ d.u ≤ 0.95 := not_le.mpr (lt_trans (by norm_num) hu)
  have h98 : ¬ d.u ≤ 0.98 := not_le.mpr hu
  exact ⟨rfl, by simp [LidarSensor.measure, LidarSensor.failure_measure,
    LidarSensor.init, h95, h98]⟩

/-- C9 amended witness: `max_range = -1`, draw `p = 0.99`. -/
theorem lidar_init_stores_unvalidated_witness :
    ((-1 : ℝ) ≤ 0 ∧ (0.98 : ℝ) < 0.99) ∧
    ((LidarSensor.init (-1)).max_range = -1 ∧
      (LidarSensor.init (-1)).measure 3 ⟨0.99, 0, 0⟩ = -1) :=
  ⟨⟨by norm_num, by norm_num⟩,
    lidar_init_stores_unvalidated (-1) (by norm_num) 3 ⟨0.99, 0, 0⟩ (by norm_num)⟩

/-- C10: for an integer `max_range = m ≥ 0` there is a valid draw whose
uniform component lands in the random branch and whose integer component
is the upper endpoint `m`, so `measure` returns exactly `max_range` from
the random branch, and `lookup_prob` then assigns that reading the
additional `0.02` failure point mass. -/
theorem random_branch_attains_max_range_failure_mass (s : LidarSensor)
    (m : ℤ) (hm : s.max_range = (m : ℝ)) (h0 : 0 ≤ m) (e : ℝ) :
    ∃ d : SensorDraw,
      (0 ≤ d.u ∧ d.u < 1) ∧ (0 ≤ d.rint ∧ d.rint < m + 1) ∧
      ((0.95 : ℝ) < d.u ∧ d.u ≤ 0.98) ∧
      s.measure e d = s.max_range ∧
      s.lookup_prob e (s.measure e d) =
        0.95 * normPdf s.max_range e + 0.03 * (1 / s.max_range) + 0.02 := by
  have hmeas : s.measure e ⟨0.96, 0, m⟩ = s.max_range := by
    norm_num [LidarSensor.measure, LidarSensor.random_measure, hm]
  refine ⟨⟨0.96, 0, m⟩, ⟨by norm_num, by norm_num⟩, ⟨h0, lt_add_one m⟩,
    ⟨by norm_num, by norm_num⟩, hmeas, ?_⟩
  rw [hmeas]
  unfold LidarSensor.lookup_prob
  simp

/-- C10 witness: `max_range = 5`. -/
theorem random_branch_attains_max_range_failure_mass_witness :
    ((LidarSensor.init 5).max_range = ((5 : ℤ) : ℝ) ∧ (0 : ℤ) ≤ 5) ∧
    (∃ d : SensorDraw,
      (0 ≤ d.u ∧ d.u < 1) ∧ (0 ≤ d.rint ∧ d.rint < 5 + 1) ∧
      ((0.95 : ℝ) < d.u ∧ d.u ≤ 0.98) ∧
      (LidarSensor.init 5).measure 3 d = (LidarSensor.init 5).max_range ∧
      (LidarSensor.init 5).lookup_prob 3 ((LidarSensor.init 5).measure 3 d) =
        0.95 * normPdf (LidarSensor.init 5).max_range 3 +
          0.03 * (1 / (LidarSensor.init 5).max_range) + 0.02) :=
  ⟨⟨by norm_num [LidarSensor.init], by norm_num⟩,
    random_branch_attains_max_range_failure_mass (LidarSensor.init 5) 5
      (by norm_num [LidarSensor.init]) (by norm_num) 3⟩

end AutonomousFlight

end
